import Mathlib

/-!
Shallow embedding of `src/StockBot.py` (the monitoring/alerting engine,
price transforms, report builder and chart builder) and proofs about it.

Modelling conventions:
* Python `float` values are modelled as `ℚ`; `None` as `Option.none`.
* Python truthiness on an optional float (`if not price`) is `truthy`:
  `None` and `0.0` are falsy, every other number is truthy.
* Side-effecting `bot.send_message` calls are modelled as emitted `Event`
  values collected in a list, in program order.
* A gateway (`yfinance`) call that raises is modelled as `Except.error`.
-/

namespace StockBot

/-- One entry of the `STOCKS` configuration dictionary:
`{"upper": ..., "lower": ..., "pct_trigger": ...}`. -/
structure Limits where
  upper : ℚ
  lower : ℚ
  pct_trigger : ℚ
  deriving Repr, DecidableEq

/-- The alert messages `monitor_prices` sends, as structured events:
the upper-threshold message, the lower-threshold message, the momentum
(`% change`) message, and the 17:00 daily report. -/
inductive Event where
  | thresholdUpper (symbol : String) (price : ℚ)
  | thresholdLower (symbol : String) (price : ℚ)
  | momentum (symbol : String) (direction : String) (change : ℚ) (price : ℚ)
  | dailyReport
  deriving Repr, DecidableEq

/-- Python truthiness of an optional float: `not x` is true exactly when
`x` is `None` or `0.0`. -/
def truthy : Option ℚ → Bool
  | none => false
  | some x => x != 0

/-- `pct_change(now, then)` from the source:
`if now is None or then is None: return None` then
`return (now - then) / then * 100`.  The source does not guard
`then == 0`; in this embedding `ℚ` division by zero is total (yielding 0),
so the zero case reaches the division exactly as in the source. -/
def pct_change (now thenP : Option ℚ) : Option ℚ :=
  match now, thenP with
  | some n, some t => some ((n - t) / t * 100)
  | _, _ => none

/-- Python's `abs` on a float: `-x` for negative `x`, else `x`.  (Agrees
with `|x|` on `ℚ`; spelled out so that terms evaluate by reduction.) -/
def pyabs (x : ℚ) : ℚ :=
  if x < 0 then -x else x

/-- Result of the per-symbol body of the `for symbol, limits in STOCKS.items()`
loop in `monitor_prices`: the events sent for that symbol this tick, plus the
list of `(now, then)` argument pairs passed to `pct_change` (to reason about
which inputs ever reach the division). -/
structure StepOut where
  events : List Event
  pctCalls : List (Option ℚ × Option ℚ)
  deriving Repr, DecidableEq

/-- The per-symbol body of the monitoring loop in `monitor_prices`,
given the already-fetched `price` and `prev`:
```
if not price or not prev: continue
change = pct_change(price, prev)
if price >= limits["upper"]: send(upper alert)
elif price <= limits["lower"]: send(lower alert)
if abs(change) >= limits["pct_trigger"]:
    direction = "up" if change > 0 else "down"
    send(momentum alert)
``` -/
def symbol_step (symbol : String) (limits : Limits) (price prev : Option ℚ) :
    StepOut :=
  if ¬ truthy price ∨ ¬ truthy prev then ⟨[], []⟩
  else
    let p := price.getD 0
    let c := (pct_change price prev).getD 0
    let thresholdEvents :=
      if limits.upper ≤ p then [Event.thresholdUpper symbol p]
      else if p ≤ limits.lower then [Event.thresholdLower symbol p]
      else []
    let momentumEvents :=
      if limits.pct_trigger ≤ pyabs c then
        [Event.momentum symbol (if 0 < c then "up" else "down") c p]
      else []
    ⟨thresholdEvents ++ momentumEvents, [(price, prev)]⟩

/-- The events one symbol produces over a sequence of ticks, where each tick
supplies the fetched `(price, prev)` pair for that symbol.  `monitor_prices`
keeps no per-symbol alert state between ticks, so the events of a tick depend
only on that tick's fetch results. -/
def monitor_symbol (symbol : String) (limits : Limits)
    (ticks : List (Option ℚ × Option ℚ)) : List Event :=
  (ticks.map (fun t => (symbol_step symbol limits t.1 t.2).events)).flatten

/-- One full tick over the configured symbol list, with a fetch oracle that
may raise (`Except.error`, modelling a provider error from `get_price` /
`get_prev_close`).  The whole `for` loop sits inside a single
`try: ... except Exception:` in `monitor_prices`, so an exception raised
while handling one symbol aborts the rest of the loop for that tick; events
already sent for earlier symbols stand, and the handler swallows the error. -/
def run_tick (fetch : String → Except Unit (Option ℚ × Option ℚ)) :
    List (String × Limits) → List Event
  | [] => []
  | (s, lim) :: rest =>
    match fetch s with
    | .error _ => []
    | .ok (price, prev) => (symbol_step s lim price prev).events ++ run_tick fetch rest

/-- The outer `while True` loop across ticks: each tick gets its own fetch
oracle; the `except` clause means a failed tick never terminates the loop. -/
def monitor_loop (symbols : List (String × Limits))
    (fetches : List (String → Except Unit (Option ℚ × Option ℚ))) : List Event :=
  (fetches.map (fun f => run_tick f symbols)).flatten

/-- `time.strftime("%H:%M")` at `t` seconds since the local-midnight epoch:
the `(hour, minute)` pair of the time of day. -/
def fmt_hm (t : ℕ) : ℕ × ℕ :=
  ((t % 86400) / 3600, (t % 86400) % 3600 / 60)

/-- The daily-report condition `now == "17:00"` of `monitor_prices`. -/
def fires_daily (t : ℕ) : Bool :=
  fmt_hm t == (17, 0)

/-- Tick times and daily-report emissions of the monitoring loop, abstracted
over wall-clock time.  `t` is the current tick's time in seconds; `gaps`
gives the delay between consecutive ticks (`CHECK_INTERVAL = 300` in the
source, left arbitrary here to cover any tick granularity).  When the
`17:00` check fires, the source additionally executes `time.sleep(60)`
before the inter-tick sleep, which the model adds to the gap.  Returns the
times at which a `DailyReport` is emitted. -/
def report_times : ℕ → List ℕ → List ℕ
  | t, [] => if fires_daily t then [t] else []
  | t, g :: gs =>
    if fires_daily t then t :: report_times (t + 60 + g) gs
    else report_times (t + g) gs

/-- Number of daily reports emitted on calendar date `d` (day index
`t / 86400`). -/
def reports_on (times : List ℕ) (d : ℕ) : ℕ :=
  (times.filter (fun e => e / 86400 == d)).length

/-- A historical price series: `(date, close)` pairs, dates as day numbers,
ascending, one row per trading day (the index of the `yfinance` frame). -/
abbrev Series := List (ℤ × ℚ)

/-- The inner `get_price_on(days_ago)` of `get_stock_report`:
`hist = ticker.history(start=d - 3 days, end=d + 1 day)` (the `end` bound is
exclusive in `yfinance`), then the last valid close of the window, `None` if
the window is empty.  Rows are assumed free of NaN (`dropna` is a no-op). -/
def get_price_on (series : Series) (today : ℤ) (days_ago : ℕ) : Option ℚ :=
  let d := today - (days_ago : ℤ)
  let hist := series.filter (fun e => decide (d - 3 ≤ e.1) && decide (e.1 < d + 1))
  (hist.map Prod.snd).getLast?

/-- The per-symbol report of `get_stock_report`, kept structured: the five
looked-up prices and the four `pct_change(today, horizon)` values that
`fmt_change` renders (a `none` change is rendered as `"N/A"`). -/
structure ReportEntry where
  today_price : Option ℚ
  change_1d : Option ℚ
  change_1w : Option ℚ
  change_1m : Option ℚ
  change_1y : Option ℚ
  deriving Repr, DecidableEq

/-- `get_stock_report` over a series, at date `today`: looks up the closes
`0/1/7/30/365` days ago and computes the four percentage changes against
today's price. -/
def get_stock_report (series : Series) (today : ℤ) : ReportEntry :=
  let p0 := get_price_on series today 0
  ⟨p0,
   pct_change p0 (get_price_on series today 1),
   pct_change p0 (get_price_on series today 7),
   pct_change p0 (get_price_on series today 30),
   pct_change p0 (get_price_on series today 365)⟩

/-- `prices.rolling(w).mean()` (pandas, default `min_periods = w`): entry `i`
is the mean of the `w` closes ending at `i` when `i ≥ w - 1`, and `NaN`
(here `none`) before that.  This models the library call on lines 181-182 of
the source. -/
def rolling_mean (xs : List ℚ) (w : ℕ) : List (Option ℚ) :=
  (List.range xs.length).map (fun i =>
    if w ≤ i + 1 then some (((xs.drop (i + 1 - w)).take w).sum / (w : ℚ)) else none)

/-- `ma.notna().sum()`: the number of valid (non-`NaN`) points of a
rolling-mean series. -/
def valid_points (l : List (Option ℚ)) : ℕ :=
  (l.filter Option.isSome).length

/-- `create_chart_bytes`, reduced to its observable decisions: fails when the
downloaded frame is empty (`raise ValueError(...)`), otherwise returns the
labels of the moving-average overlays drawn — a window's overlay is plotted
exactly when its rolling mean has strictly more than 5 valid points. -/
def create_chart_overlays (closes : List ℚ) : Except String (List String) :=
  match closes with
  | [] => .error "No data found"
  | _ =>
    .ok ((if 5 < valid_points (rolling_mean closes 20) then ["20-Day MA"] else []) ++
         (if 5 < valid_points (rolling_mean closes 50) then ["50-Day MA"] else []))

instance {ε α : Type} [DecidableEq ε] [DecidableEq α] : DecidableEq (Except ε α)
  | .error a, .error b =>
    if h : a = b then .isTrue (by rw [h]) else .isFalse (by simp [h])
  | .error _, .ok _ => .isFalse (by simp)
  | .ok _, .error _ => .isFalse (by simp)
  | .ok a, .ok b =>
    if h : a = b then .isTrue (by rw [h]) else .isFalse (by simp [h])

/-- Event classifiers for counting. -/
def is_upper : Event → Bool
  | .thresholdUpper _ _ => true
  | _ => false

def is_lower : Event → Bool
  | .thresholdLower _ _ => true
  | _ => false

def is_momentum : Event → Bool
  | .momentum _ _ _ _ => true
  | _ => false

/-- The tick-level upper-breach condition: the symbol was not skipped
(`price` and `prev` truthy) and `price >= upper`. -/
def upper_breach (limits : Limits) (t : Option ℚ × Option ℚ) : Bool :=
  truthy t.1 && truthy t.2 && decide (limits.upper ≤ t.1.getD 0)

/-- The tick-level lower-alert condition as the `elif` makes it: not skipped,
`price < upper` and `price <= lower`. -/
def lower_breach (limits : Limits) (t : Option ℚ × Option ℚ) : Bool :=
  truthy t.1 && truthy t.2 && !decide (limits.upper ≤ t.1.getD 0)
    && decide (t.1.getD 0 ≤ limits.lower)

/-- The tick-level momentum condition: not skipped and
`abs(change) >= pct_trigger`. -/
def momentum_breach (limits : Limits) (t : Option ℚ × Option ℚ) : Bool :=
  truthy t.1 && truthy t.2
    && decide (limits.pct_trigger ≤ pyabs ((pct_change t.1 t.2).getD 0))

/-- Number of maximal contiguous runs of `true` in a list of per-tick
condition flags: a run starts at a `true` whose predecessor (or the virtual
tick before the first) is `false`. -/
def run_count (l : List Bool) : ℕ :=
  ((false :: l).zip l).countP (fun p => !p.1 && p.2)

/-- The behaviour claimed of `movingAverage(series, window)`, at a given
series and window: no valid point on a series shorter than the window;
exactly one valid point — the mean of all closes, at the last index — on a
series of exactly `window` points; in general the value at index
`i ≥ window - 1` is the mean of the trailing `window` closes and indices
before that hold no value. -/
def RollingSpec (xs : List ℚ) (w : ℕ) : Prop :=
  (xs.length < w → valid_points (rolling_mean xs w) = 0)
  ∧ (xs.length = w → valid_points (rolling_mean xs w) = 1
      ∧ (rolling_mean xs w).getLast? = some (some (xs.sum / (w : ℚ))))
  ∧ (∀ i : ℕ, i < xs.length →
      (w ≤ i + 1 → (rolling_mean xs w)[i]?
          = some (some (((xs.drop (i + 1 - w)).take w).sum / (w : ℚ))))
      ∧ (i + 1 < w → (rolling_mean xs w)[i]? = some none))

section Lemmas

/-- Per-tick count of upper-threshold alerts of one symbol-step. -/
theorem step_upper_count (s : String) (lim : Limits) (price prev : Option ℚ) :
    ((symbol_step s lim price prev).events.filter is_upper).length
      = if upper_breach lim (price, prev) then 1 else 0 := by
  unfold symbol_step upper_breach
  by_cases h1 : truthy price <;> by_cases h2 : truthy prev <;>
    simp [h1, h2] <;> split_ifs <;> simp_all [is_upper, is_momentum]

/-- Per-tick count of lower-threshold alerts of one symbol-step. -/
theorem step_lower_count (s : String) (lim : Limits) (price prev : Option ℚ) :
    ((symbol_step s lim price prev).events.filter is_lower).length
      = if lower_breach lim (price, prev) then 1 else 0 := by
  unfold symbol_step lower_breach
  by_cases h1 : truthy price <;> by_cases h2 : truthy prev <;>
    simp [h1, h2] <;> split_ifs <;> simp_all [is_lower, is_momentum] <;> linarith

/-- Per-tick count of momentum alerts of one symbol-step. -/
theorem step_momentum_count (s : String) (lim : Limits) (price prev : Option ℚ) :
    ((symbol_step s lim price prev).events.filter is_momentum).length
      = if momentum_breach lim (price, prev) then 1 else 0 := by
  unfold symbol_step momentum_breach
  by_cases h1 : truthy price <;> by_cases h2 : truthy prev <;>
    simp [h1, h2] <;> split_ifs <;> simp_all [is_upper, is_lower, is_momentum]

/-- Lifting a per-tick event count to a whole tick sequence. -/
theorem monitor_symbol_count (s : String) (lim : Limits) (p : Event → Bool)
    (q : Option ℚ × Option ℚ → Bool)
    (h : ∀ price prev : Option ℚ,
      ((symbol_step s lim price prev).events.filter p).length
        = if q (price, prev) then 1 else 0) :
    ∀ ticks : List (Option ℚ × Option ℚ),
      ((monitor_symbol s lim ticks).filter p).length = (ticks.filter q).length := by
  intro ticks
  induction ticks with
  | nil => rfl
  | cons t ts ih =>
    have hsplit : monitor_symbol s lim (t :: ts)
        = (symbol_step s lim t.1 t.2).events ++ monitor_symbol s lim ts := by
      simp [monitor_symbol]
    have ht : ((t.1, t.2) : Option ℚ × Option ℚ) = t := rfl
    rw [hsplit, List.filter_append, List.length_append, h t.1 t.2, ht,
      List.filter_cons]
    split_ifs with hq <;> simp [ih, Nat.add_comm]

/-- The `now == "17:00"` check holds exactly for the seconds of the
17:00 minute of the day. -/
theorem fires_daily_iff (t : ℕ) :
    fires_daily t = true ↔ 61200 ≤ t % 86400 ∧ t % 86400 < 61260 := by
  unfold fires_daily fmt_hm
  simp only [beq_iff_eq, Prod.mk.injEq]
  omega

/-- Every emitted daily-report time is no earlier than the current tick and
satisfies the `17:00` check. -/
theorem mem_report_times :
    ∀ (gs : List ℕ) (t e : ℕ), e ∈ report_times t gs →
      t ≤ e ∧ fires_daily e = true := by
  intro gs
  induction gs with
  | nil =>
    intro t e h
    unfold report_times at h
    split at h <;> simp_all
  | cons g gs ih =>
    intro t e h
    unfold report_times at h
    split at h
    · rcases List.mem_cons.mp h with rfl | hmem
      · simp_all
      · have := ih (t + 60 + g) e hmem
        exact ⟨by omega, this.2⟩
    · have := ih (t + g) e h
      exact ⟨by omega, this.2⟩

/-- Two fire times at least 60 seconds apart cannot lie on the same
calendar date. -/
theorem fires_differ_day {a b : ℕ} (ha : fires_daily a = true)
    (hb : fires_daily b = true) (hab : a + 60 ≤ b) : a / 86400 ≠ b / 86400 := by
  rw [fires_daily_iff] at ha hb
  omega

/-- The monitoring loop emits at most one daily report per calendar date,
whatever the tick times are. -/
theorem reports_on_le_one :
    ∀ (gs : List ℕ) (t d : ℕ), reports_on (report_times t gs) d ≤ 1 := by
  intro gs
  induction gs with
  | nil =>
    intro t d
    unfold report_times reports_on
    split_ifs <;> simp [List.filter_cons] <;> split_ifs <;> simp
  | cons g gs ih =>
    intro t d
    unfold report_times
    split_ifs with hf
    · unfold reports_on
      rw [List.filter_cons]
      split_ifs with hd
      · have htail :
            (report_times (t + 60 + g) gs).filter (fun e => e / 86400 == d) = [] := by
          rw [List.filter_eq_nil_iff]
          intro e he
          obtain ⟨hle, hfe⟩ := mem_report_times gs (t + 60 + g) e he
          have hne := fires_differ_day hf hfe (by omega)
          simp only [beq_iff_eq] at hd ⊢
          omega
        simp [htail]
      · simpa [reports_on] using ih (t + 60 + g) d
    · exact ih (t + g) d

/-- How many indices of `range n` pass the rolling-window validity test. -/
theorem countP_range_window (n w : ℕ) (hw : 1 ≤ w) :
    (List.range n).countP (fun i => decide (w ≤ i + 1)) = n + 1 - w := by
  induction n with
  | zero => simp; omega
  | succ n ih =>
    rw [List.range_succ, List.countP_append, ih]
    simp only [List.countP_cons, List.countP_nil]
    split_ifs with h <;> simp_all <;> omega

/-- The number of valid points of a rolling mean, as a function of the
series length and the window. -/
theorem valid_points_rolling (xs : List ℚ) (w : ℕ) (hw : 1 ≤ w) :
    valid_points (rolling_mean xs w) = xs.length + 1 - w := by
  unfold valid_points rolling_mean
  rw [← List.countP_eq_length_filter, List.countP_map,
    List.countP_congr (q := fun i => decide (w ≤ i + 1)) ?_,
    countP_range_window _ _ hw]
  intro i _
  by_cases h : w ≤ i + 1 <;> simp [h]

/-- An upper- and a lower-threshold alert are never both emitted by the same
symbol-step: the source's `elif` gives the upper branch precedence. -/
theorem step_not_both_thresholds (s : String) (lim : Limits)
    (price prev : Option ℚ) (a b : ℚ)
    (ha : Event.thresholdUpper s a ∈ (symbol_step s lim price prev).events)
    (hb : Event.thresholdLower s b ∈ (symbol_step s lim price prev).events) :
    False := by
  unfold symbol_step at ha hb
  by_cases h1 : truthy price <;> by_cases h2 : truthy prev <;>
    simp [h1, h2] at ha hb <;> split_ifs at ha hb <;> simp_all

end Lemmas

/-- Claim C1 (counterexample): with thresholds `{upper 130, lower 110}` and
two consecutive valid ticks at price 150 — a single contiguous run at or
above the upper threshold — the loop emits the upper alert twice, not once:
`monitor_prices` keeps no `aboveUpper` flag, so a sustained breach re-fires
every tick. -/
theorem upper_alert_repeats_within_run :
    run_count ([((some 150 : Option ℚ), (some 150 : Option ℚ)),
        (some 150, some 150)].map (upper_breach ⟨130, 110, 2⟩)) = 1
    ∧ ((monitor_symbol "A" ⟨130, 110, 2⟩
        [(some 150, some 150), (some 150, some 150)]).filter is_upper).length = 2 := by
  constructor
  · norm_num [run_count, upper_breach, truthy, List.countP_cons]
  · norm_num [monitor_symbol, symbol_step, truthy, pct_change, pyabs, is_upper,
      List.filter_cons]

/-- Claim C1 (amended): a `ThresholdCrossed{upper}` event is emitted on
every tick during which both fetches are truthy and `price >= upper` — once
per breaching tick, not once per contiguous run; symmetrically, a lower
alert on every valid tick with `price < upper` and `price <= lower` (the
`elif` makes the lower alert conditional on the upper one not firing). -/
theorem threshold_alert_every_breach_tick :
    ∀ (s : String) (lim : Limits) (ticks : List (Option ℚ × Option ℚ)),
      ((monitor_symbol s lim ticks).filter is_upper).length
          = (ticks.filter (upper_breach lim)).length
      ∧ ((monitor_symbol s lim ticks).filter is_lower).length
          = (ticks.filter (lower_breach lim)).length := by
  intro s lim ticks
  exact ⟨monitor_symbol_count s lim is_upper (upper_breach lim)
      (fun p v => step_upper_count s lim p v) ticks,
    monitor_symbol_count s lim is_lower (lower_breach lim)
      (fun p v => step_lower_count s lim p v) ticks⟩

/-- Claim C3 (counterexample): `pct_change` with `then = 0` does not return
absent — the source only guards `None`, so a zero denominator reaches the
division (in Python it is not intercepted; here the total `ℚ` division makes
the result a present value). -/
theorem pct_change_zero_not_absent :
    pct_change (some 102) (some 0) ≠ none := by
  decide

/-- Claim C3 (amended): `pct_change(now, then)` returns `(now-then)/then*100`
whenever both inputs are present — including `then = 0`, which is not
guarded — and returns absent exactly when either input is absent; on
`now = 102, then = 100` it returns `+2.00`. -/
theorem pct_change_spec :
    ∀ n t : ℚ,
      pct_change (some n) (some t) = some ((n - t) / t * 100)
      ∧ pct_change none (some t) = none
      ∧ pct_change (some n) none = none
      ∧ pct_change none none = none
      ∧ pct_change (some 102) (some 100) = some 2 := by
  intro n t
  refine ⟨rfl, rfl, rfl, rfl, ?_⟩
  norm_num [pct_change]

/-- Claim C5 (counterexample): with `pct_trigger = 2` and two consecutive
valid ticks whose change is `+50%` — a single contiguous breach run — the
loop emits two `MomentumMove` events: there is no `pctBreached` flag, so the
alert is not edge-triggered. -/
theorem momentum_alert_repeats_within_run :
    run_count ([((some 150 : Option ℚ), (some 100 : Option ℚ)),
        (some 150, some 100)].map (momentum_breach ⟨130, 110, 2⟩)) = 1
    ∧ ((monitor_symbol "A" ⟨130, 110, 2⟩
        [(some 150, some 100), (some 150, some 100)]).filter is_momentum).length
        = 2 := by
  constructor
  · norm_num [run_count, momentum_breach, truthy, pct_change, pyabs,
      List.countP_cons]
  · norm_num [monitor_symbol, symbol_step, truthy, pct_change, pyabs,
      is_momentum, List.filter_cons]

/-- Claim C5 (amended): a `MomentumMove` event is emitted on every tick with
truthy fetches and `|change| >= pct_trigger` — once per breaching tick, not
once per contiguous breach run — and its direction is `"up"` exactly when
the change is positive, `"down"` otherwise. -/
theorem momentum_alert_every_breach_tick :
    (∀ (s : String) (lim : Limits) (ticks : List (Option ℚ × Option ℚ)),
      ((monitor_symbol s lim ticks).filter is_momentum).length
        = (ticks.filter (momentum_breach lim)).length)
    ∧ (∀ (s : String) (lim : Limits) (price prev : Option ℚ)
        (d : String) (c p : ℚ),
        Event.momentum s d c p ∈ (symbol_step s lim price prev).events →
          d = if 0 < c then "up" else "down") := by
  constructor
  · intro s lim ticks
    exact monitor_symbol_count s lim is_momentum (momentum_breach lim)
      (fun p v => step_momentum_count s lim p v) ticks
  · intro s lim price prev d c p hmem
    unfold symbol_step at hmem
    by_cases h1 : truthy price <;> by_cases h2 : truthy prev <;>
      simp [h1, h2] at hmem <;> split_ifs at hmem <;> simp_all
    all_goals
      obtain ⟨-, rfl, rfl, -⟩ := hmem
    all_goals
      rw [if_neg (not_lt.mpr (by assumption))]

/-- Claim C9 (counterexample): the claim's scenario is impossible — even
with overlapping thresholds (`lower >= upper`) and a price satisfying both
conditions, the `elif` never lets the upper and the lower alert fire in the
same tick evaluation. -/
theorem no_double_threshold_fire :
    ¬ ∃ (s : String) (lim : Limits) (pr prev : ℚ),
        lim.upper ≤ lim.lower ∧ lim.upper ≤ pr ∧ pr ≤ lim.lower
        ∧ (∃ a, Event.thresholdUpper s a
            ∈ (symbol_step s lim (some pr) (some prev)).events)
        ∧ (∃ b, Event.thresholdLower s b
            ∈ (symbol_step s lim (some pr) (some prev)).events) := by
  rintro ⟨s, lim, pr, prev, -, -, -, ⟨a, ha⟩, ⟨b, hb⟩⟩
  exact step_not_both_thresholds s lim (some pr) (some prev) a b ha hb

/-- Claim C9 (amended): with overlapping thresholds and a price satisfying
both conditions on a valid tick, only the upper alert fires — the `elif`
gives the upper branch precedence, and the lower alert is suppressed. -/
theorem overlapping_thresholds_fire_upper_only :
    ∀ (s : String) (lim : Limits) (pr prev : ℚ),
      pr ≠ 0 → prev ≠ 0 → lim.upper ≤ pr → pr ≤ lim.lower →
      Event.thresholdUpper s pr ∈ (symbol_step s lim (some pr) (some prev)).events
      ∧ ∀ b, Event.thresholdLower s b
          ∉ (symbol_step s lim (some pr) (some prev)).events := by
  intro s lim pr prev hpr hprev hu hl
  unfold symbol_step
  simp only [truthy, bne_iff_ne, ne_eq, hpr, hprev, not_false_iff, not_true,
    or_self, if_false, Option.getD_some]
  constructor
  · split_ifs <;> simp_all
  · intro b
    split_ifs <;> simp_all

/-- Claim C9 (witness for the amended theorem). -/
theorem overlapping_thresholds_fire_upper_only_witness :
    ((100 : ℚ) ≠ 0 ∧ (50 : ℚ) ≠ 0 ∧ (⟨100, 100, 1000⟩ : Limits).upper ≤ 100
      ∧ (100 : ℚ) ≤ (⟨100, 100, 1000⟩ : Limits).lower)
    ∧ (Event.thresholdUpper "A" 100
        ∈ (symbol_step "A" ⟨100, 100, 1000⟩ (some 100) (some 50)).events
      ∧ ∀ b, Event.thresholdLower "A" b
          ∉ (symbol_step "A" ⟨100, 100, 1000⟩ (some 100) (some 50)).events) :=
  ⟨⟨by norm_num, by norm_num, by norm_num, by norm_num⟩,
    overlapping_thresholds_fire_upper_only "A" ⟨100, 100, 1000⟩ 100 50
      (by norm_num) (by norm_num) (by norm_num) (by norm_num)⟩

/-- Claim C10: a fetched price or previous close of `0` is treated exactly
like absent data — the truthiness guard skips the symbol for the tick with
no event and no `pct_change` call — and every `(now, then)` pair the loop
does pass to `pct_change` consists of present nonzero values, so the
unguarded division is unreachable from the tick path. -/
theorem zero_price_skipped :
    ∀ (s : String) (lim : Limits) (price prev : Option ℚ),
      symbol_step s lim (some 0) prev = ⟨[], []⟩
      ∧ symbol_step s lim price (some 0) = ⟨[], []⟩
      ∧ symbol_step s lim (some 0) prev = symbol_step s lim none prev
      ∧ symbol_step s lim price (some 0) = symbol_step s lim price none
      ∧ (∀ c ∈ (symbol_step s lim price prev).pctCalls,
          ∃ n t, c = (some n, some t) ∧ n ≠ 0 ∧ t ≠ 0) := by
  intro s lim price prev
  refine ⟨by simp [symbol_step, truthy], by simp [symbol_step, truthy],
    by simp [symbol_step, truthy], by simp [symbol_step, truthy], ?_⟩
  intro c hc
  unfold symbol_step at hc
  by_cases h1 : truthy price <;> by_cases h2 : truthy prev <;>
    simp [h1, h2] at hc
  match price, h1 with
  | some n, h1 =>
    match prev, h2 with
    | some t, h2 =>
      refine ⟨n, t, by simp_all, ?_, ?_⟩ <;> simp_all [truthy]

/-- Claim C2: the loop emits at most one `DailyReport` per calendar date for
every tick-gap sequence (any granularity) — the `time.sleep(60)` after a
report pushes the next tick past the `17:00` minute — and simulating
5-minute ticks from 16:55 (second 60900 of day 0) to 18:00 yields exactly
one report, at 17:00:00 (second 61200, still on day 0). -/
theorem daily_report_once_per_date :
    (∀ (gaps : List ℕ) (t d : ℕ), reports_on (report_times t gaps) d ≤ 1)
    ∧ report_times 60900 (List.replicate 12 300) = [61200]
    ∧ reports_on (report_times 60900 (List.replicate 12 300)) 0 = 1 := by
  refine ⟨fun gaps t d => reports_on_le_one gaps t d, ?_, ?_⟩ <;> decide

/-- Claim C4 (counterexample): in a two-symbol tick where the first
symbol's fetch raises, the tick emits nothing at all — the second symbol is
not evaluated, although on its own it would have emitted an upper alert.
The `try` block wraps the whole `for` loop, so one symbol's error skips the
remainder of the tick. -/
theorem provider_error_skips_rest_of_tick_cex :
    run_tick (fun s => if s = "A" then .error () else .ok (some 150, some 150))
        [("A", ⟨130, 110, 2⟩), ("B", ⟨130, 110, 2⟩)] = []
    ∧ run_tick (fun s => if s = "A" then .error () else .ok (some 150, some 150))
        [("B", ⟨130, 110, 2⟩)] = [Event.thresholdUpper "B" 150] := by
  constructor
  · simp [run_tick]
  · simp only [run_tick]
    rw [if_neg (by decide : ¬ ("B" : String) = "A")]
    norm_num [symbol_step, truthy, pct_change, pyabs]

/-- Claim C4 (amended): a provider error while handling one symbol ends that
tick early — every symbol after it in iteration order is skipped for that
tick (symbols before it are unaffected) — but the error is caught at tick
level, so the loop itself continues and subsequent ticks run in full. -/
theorem provider_error_skips_rest_of_tick :
    (∀ (fetch : String → Except Unit (Option ℚ × Option ℚ))
        (pre : List (String × Limits)) (s : String) (lim : Limits)
        (post : List (String × Limits)),
      fetch s = .error () →
        run_tick fetch (pre ++ (s, lim) :: post)
          = run_tick fetch (pre ++ [(s, lim)]))
    ∧ (∀ (symbols : List (String × Limits))
        (f : String → Except Unit (Option ℚ × Option ℚ))
        (fetches : List (String → Except Unit (Option ℚ × Option ℚ))),
      monitor_loop symbols (f :: fetches)
        = run_tick f symbols ++ monitor_loop symbols fetches) := by
  constructor
  · intro fetch pre s lim post herr
    induction pre with
    | nil => simp [run_tick, herr]
    | cons hd tl ih =>
      obtain ⟨s', lim'⟩ := hd
      simp only [List.cons_append, run_tick]
      cases hf : fetch s' with
      | error e => rfl
      | ok v =>
        obtain ⟨pv, vv⟩ := v
        simp [ih]
  · intro symbols f fetches
    simp [monitor_loop]

/-- Claim C4 (witness for the amended theorem). -/
theorem provider_error_skips_rest_of_tick_witness :
    ((fun _ : String => (.error () : Except Unit (Option ℚ × Option ℚ))) "A"
      = .error ())
    ∧ run_tick (fun _ => .error ())
        ([] ++ ("A", (⟨130, 110, 2⟩ : Limits)) :: [("B", ⟨130, 110, 2⟩)])
      = run_tick (fun _ => .error ()) ([] ++ [("A", ⟨130, 110, 2⟩)]) :=
  ⟨rfl, provider_error_skips_rest_of_tick.1 (fun _ => .error ()) [] "A"
    ⟨130, 110, 2⟩ [("B", ⟨130, 110, 2⟩)] rfl⟩

/-- Claim C6: `get_stock_report` on a series holding only today's close
returns today's price and four absent changes — a missing horizon never
fails the report, it only renders that field as `"N/A"`. -/
theorem report_with_only_today :
    ∀ (today : ℤ) (c : ℚ),
      get_stock_report [(today, c)] today = ⟨some c, none, none, none, none⟩ := by
  intro today c
  have key : ∀ k : ℕ, 1 ≤ k → get_price_on [(today, c)] today k = none := by
    intro k hk
    unfold get_price_on
    have hno : ¬ (today < today - (k : ℤ) + 1) := by omega
    simp [List.filter_cons, hno]
  have h0 : get_price_on [(today, c)] today 0 = some c := by
    unfold get_price_on
    have h1 : today - ((0 : ℕ) : ℤ) - 3 ≤ today := by omega
    have h2 : today < today - ((0 : ℕ) : ℤ) + 1 := by omega
    simp [List.filter_cons, h1, h2]
  unfold get_stock_report
  rw [h0, key 1 (by norm_num), key 7 (by norm_num), key 30 (by norm_num),
    key 365 (by norm_num)]
  rfl

/-- Claim C7: the rolling mean has no valid point on a series shorter than
the window, exactly one valid point — the mean of all closes, at the last
index — on a series of exactly `window` points, and in general the value at
index `i ≥ window-1` is the trailing-window mean while earlier indices are
absent. -/
theorem rolling_mean_meets_spec :
    ∀ (xs : List ℚ) (w : ℕ), 1 ≤ w → RollingSpec xs w := by
  intro xs w hw
  refine ⟨?_, ?_, ?_⟩
  · intro hlen
    rw [valid_points_rolling xs w hw]
    omega
  · intro hlen
    refine ⟨by rw [valid_points_rolling xs w hw, hlen]; omega, ?_⟩
    unfold rolling_mean
    rw [List.getLast?_map, hlen]
    obtain ⟨w', rfl⟩ : ∃ w', w = w' + 1 := ⟨w - 1, by omega⟩
    rw [List.range_succ, List.getLast?_concat]
    simp only [Option.map_some']
    rw [if_pos (by omega), Nat.sub_self, List.drop_zero,
      List.take_of_length_le (by omega)]
  · intro i hi
    constructor
    · intro hwi
      unfold rolling_mean
      rw [List.getElem?_map, List.getElem?_range hi]
      simp only [Option.map_some']
      rw [if_pos hwi]
    · intro hiw
      unfold rolling_mean
      rw [List.getElem?_map, List.getElem?_range hi]
      simp only [Option.map_some']
      rw [if_neg (by omega)]

/-- Claim C7 (witness). -/
theorem rolling_mean_meets_spec_witness :
    1 ≤ 2 ∧ RollingSpec [1, 2] 2 :=
  ⟨by decide, rolling_mean_meets_spec [1, 2] 2 (by decide)⟩

/-- Claim C8: the chart builder fails on an empty series instead of drawing;
on any 30-point series with windows `{20, 50}` it draws exactly the 20-day
overlay (11 valid points for the 20-day mean, none for the 50-day); and in
general an overlay is drawn exactly when its rolling mean has strictly more
than 5 valid points. -/
theorem chart_overlays_spec :
    (create_chart_overlays [] = .error "No data found")
    ∧ (∀ xs : List ℚ, xs.length = 30 →
        create_chart_overlays xs = .ok ["20-Day MA"])
    ∧ (∀ xs : List ℚ, xs ≠ [] → ∃ l,
        create_chart_overlays xs = .ok l
        ∧ ("20-Day MA" ∈ l ↔ 5 < valid_points (rolling_mean xs 20))
        ∧ ("50-Day MA" ∈ l ↔ 5 < valid_points (rolling_mean xs 50))) := by
  refine ⟨rfl, ?_, ?_⟩
  · intro xs hlen
    match xs, hlen with
    | x :: rest, hlen =>
      unfold create_chart_overlays
      rw [valid_points_rolling _ 20 (by norm_num),
        valid_points_rolling _ 50 (by norm_num), hlen]
      norm_num
  · intro xs hne
    match xs, hne with
    | x :: rest, _ =>
      refine ⟨_, rfl, ?_, ?_⟩ <;> split_ifs <;> simp_all

/-- Claim C8 (witness). -/
theorem chart_overlays_spec_witness :
    (List.replicate 30 (1 : ℚ)).length = 30
    ∧ create_chart_overlays (List.replicate 30 (1 : ℚ)) = .ok ["20-Day MA"] :=
  ⟨by simp, chart_overlays_spec.2.1 (List.replicate 30 1) (by simp)⟩

/-- Claim C5 (witness for the amended theorem). -/
theorem momentum_alert_every_breach_tick_witness :
    (Event.momentum "A" "up" 50 150
      ∈ (symbol_step "A" ⟨130, 110, 2⟩ (some 150) (some 100)).events)
    ∧ "up" = if (0 : ℚ) < 50 then "up" else "down" := by
  have hmem : Event.momentum "A" "up" 50 150
      ∈ (symbol_step "A" ⟨130, 110, 2⟩ (some 150) (some 100)).events := by
    norm_num [symbol_step, truthy, pct_change, pyabs]
  exact ⟨hmem, momentum_alert_every_breach_tick.2 "A" ⟨130, 110, 2⟩
    (some 150) (some 100) "up" 50 150 hmem⟩

/-- Claim C10 (witness): a concrete valid tick whose `pct_change` call pair
is present and nonzero. -/
theorem zero_price_skipped_witness :
    ((some (150 : ℚ), some (100 : ℚ))
      ∈ (symbol_step "A" ⟨130, 110, 2⟩ (some 150) (some 100)).pctCalls)
    ∧ ∃ n t : ℚ, ((some (150 : ℚ), some (100 : ℚ)) = (some n, some t)
        ∧ n ≠ 0 ∧ t ≠ 0) := by
  have hmem : ((some (150 : ℚ), some (100 : ℚ))
      ∈ (symbol_step "A" ⟨130, 110, 2⟩ (some 150) (some 100)).pctCalls) := by
    norm_num [symbol_step, truthy, pct_change, pyabs]
  exact ⟨hmem,
    (zero_price_skipped "A" ⟨130, 110, 2⟩ (some 150) (some 100)).2.2.2.2
      (some 150, some 100) hmem⟩

end StockBot
